import Mathlib

/-!
Shallow embedding of the lebrely-backend user/auth services
(`src/app/models/user.py`, `src/app/services/user.py`,
`src/app/services/auth.py`, `src/app/api/v1/endpoints/auth.py`).

The database is modelled as a list of rows of the `users` table.  The
storage layer (SQLAlchemy + the relational database) enforces three
declared constraints on that table: `id` is the primary key,
`email` is `unique=True`, `supabase_user_id` is `unique=True` when set
(nullable).  A `flush`/`commit` that violates one of them raises
`IntegrityError`; the enclosing transaction is rolled back, so the
durable database is unchanged.  Write primitives below (`insertUser`,
`updateRow`) return `Except` accordingly.  Operations return the durable
database after the request together with the Python-level outcome; on a
raised exception the durable database is the original one (the request
session from `get_db` in `src/app/db/database.py` is closed without
commit, discarding flushed-but-uncommitted rows).
-/

/-- A row of the `users` table (`src/app/models/user.py`, class `User`).
`created_at`/`updated_at` are server-generated timestamps with no
bearing on any claim and are omitted. -/
structure LocalUser where
  id : Nat
  supabase_user_id : Option String
  name : String
  email : String
  is_active : Bool
deriving DecidableEq, Repr

/-- The `users` table. -/
abbrev DB := List LocalUser

/-- Storage-layer constraint violation (`IntegrityError`). -/
inductive DbError where
  | integrity
deriving DecidableEq, Repr

/-- Python-level failure: either a FastAPI `HTTPException` (status code and
detail) or some other raised exception carrying a message. -/
structure HTTPError where
  status_code : Nat
  detail : String
deriving DecidableEq, Repr

/-- An exception inside a service call: `HTTPException` or any other
Python exception (`IntegrityError`, `AttributeError`, ...). -/
inductive PyError where
  | http : HTTPError → PyError
  | exn : String → PyError
deriving DecidableEq, Repr

/-- Result of a call to the external provider (supabase client): either the
parsed response or a raised provider error (`AuthApiError` etc.). -/
inductive ExtResult (α : Type) where
  | ok : α → ExtResult α
  | err : String → ExtResult α
deriving DecidableEq, Repr

/-- INSERT of a fresh row, as executed at `flush`/`commit`: the database
rejects it when a row with the same `email`, the same set
`supabase_user_id`, or the same primary key already exists. -/
def insertUser (db : DB) (u : LocalUser) : Except DbError DB :=
  if db.any (fun x => x.email == u.email) then .error .integrity
  else if db.any (fun x => u.supabase_user_id.isSome &&
      (x.supabase_user_id == u.supabase_user_id)) then .error .integrity
  else if db.any (fun x => x.id == u.id) then .error .integrity
  else .ok (db ++ [u])

/-- UPDATE of the row with primary key `u.id` to the new column values `u`,
as executed at `commit`: rejected when another row holds the same `email`
or the same set `supabase_user_id`. -/
def updateRow (db : DB) (u : LocalUser) : Except DbError DB :=
  if db.any (fun x => x.id != u.id && x.email == u.email) then .error .integrity
  else if db.any (fun x => x.id != u.id && u.supabase_user_id.isSome &&
      (x.supabase_user_id == u.supabase_user_id)) then .error .integrity
  else .ok (db.map (fun x => if x.id == u.id then u else x))

/-- Two rows respect the table's uniqueness constraints: distinct primary
keys, distinct emails, and distinct external ids when the first one is
set. -/
def Distinct (a b : LocalUser) : Prop :=
  a.id ≠ b.id ∧ a.email ≠ b.email ∧
    (a.supabase_user_id.isSome → a.supabase_user_id ≠ b.supabase_user_id)

instance (a b : LocalUser) : Decidable (Distinct a b) := by
  unfold Distinct; infer_instance

/-- The database state respects all three declared uniqueness constraints
(primary key, `unique` email, `unique` nullable `supabase_user_id`).
Every reachable state satisfies it because the storage layer checks the
constraints at every write. -/
def Invariant (db : DB) : Prop := db.Pairwise Distinct

instance (db : DB) : Decidable (Invariant db) := by
  unfold Invariant; infer_instance

/-- At most one row per email (spec section 8, first testable property). -/
def EmailUnique (db : DB) : Prop := db.Pairwise (fun a b => a.email ≠ b.email)

/-- At most one row per set external id (spec section 8, second testable
property). -/
def SidUnique (db : DB) : Prop :=
  db.Pairwise (fun a b =>
    a.supabase_user_id.isSome → a.supabase_user_id ≠ b.supabase_user_id)

/-- Both uniqueness properties named by the spec. -/
def BothUnique (db : DB) : Prop := EmailUnique db ∧ SidUnique db

theorem Invariant.bothUnique {db : DB} (h : Invariant db) : BothUnique db :=
  ⟨h.imp (fun hab => hab.2.1), h.imp (fun hab => hab.2.2)⟩

/-! ## UserService (`src/app/services/user.py`) -/

/-- `UserCreate` schema (`src/app/schemas/user.py`). -/
structure UserCreate where
  name : String
  email : String
deriving DecidableEq, Repr

/-- `UserUpdate` schema; `none` models a field absent from
`model_dump(exclude_unset=True)`. -/
structure UserUpdate where
  name : Option String
  email : Option String
  is_active : Option Bool
deriving DecidableEq, Repr

/-- `UserService.get_user_by_id`: `SELECT ... WHERE users.id = user_id`,
`scalar_one_or_none()` (at most one row since `id` is the primary key). -/
def get_user_by_id (db : DB) (user_id : Nat) : Option LocalUser :=
  db.find? (fun u => u.id == user_id)

/-- `UserService.get_user_by_email`: `SELECT ... WHERE users.email = email`,
`scalar_one_or_none()` (at most one row under the unique constraint). -/
def get_user_by_email (db : DB) (email : String) : Option LocalUser :=
  db.find? (fun u => u.email == email)

/-- `UserService.get_user_by_supabase_id`. -/
def get_user_by_supabase_id (db : DB) (sid : String) : Option LocalUser :=
  db.find? (fun u => u.supabase_user_id == some sid)

/-- The autoincrement primary key the database assigns to the next inserted
row.  Rows are never hard-deleted (`delete_user` only clears `is_active`),
so one more than the maximum id present is a faithful model of the
sequence. -/
def nextId (db : DB) : Nat := (db.map (fun u => u.id)).foldr max 0 + 1

/-- `UserService.create_user`: application-level duplicate checks on email
and supabase id, then INSERT and commit. -/
def create_user (db : DB) (uc : UserCreate) (supabase_user_id : String) :
    DB × Except PyError LocalUser :=
  if (get_user_by_email db uc.email).isSome then
    (db, .error (.http ⟨400, "User with this email already exists"⟩))
  else if (get_user_by_supabase_id db supabase_user_id).isSome then
    (db, .error (.http ⟨400, "User with this Supabase ID already exists"⟩))
  else
    match insertUser db
        { id := nextId db, supabase_user_id := some supabase_user_id,
          name := uc.name, email := uc.email, is_active := true } with
    | .ok db' =>
      (db', .ok { id := nextId db, supabase_user_id := some supabase_user_id,
                  name := uc.name, email := uc.email, is_active := true })
    | .error _ => (db, .error (.exn "IntegrityError"))

/-- `UserService.update_user`: look up by id, `setattr` each field present
in the update, commit. -/
def update_user (db : DB) (user_id : Nat) (uu : UserUpdate) :
    DB × Except PyError (Option LocalUser) :=
  match get_user_by_id db user_id with
  | none => (db, .ok none)
  | some w =>
    match updateRow db { w with
        name := uu.name.getD w.name,
        email := uu.email.getD w.email,
        is_active := uu.is_active.getD w.is_active } with
    | .ok db' => (db', .ok (some { w with
        name := uu.name.getD w.name,
        email := uu.email.getD w.email,
        is_active := uu.is_active.getD w.is_active }))
    | .error _ => (db, .error (.exn "IntegrityError"))

/-- `UserService.delete_user`: soft delete, clears `is_active` and
commits. -/
def delete_user (db : DB) (user_id : Nat) : DB × Except PyError Bool :=
  match get_user_by_id db user_id with
  | none => (db, .ok false)
  | some w =>
    match updateRow db { w with is_active := false } with
    | .ok db' => (db', .ok true)
    | .error _ => (db, .error (.exn "IntegrityError"))

/-- A Python object as far as the `is` operator can tell: `is` compares
object identity, so a SQLAlchemy column object is never `is`-identical to
the boolean constant `True`. -/
inductive PyObject where
  | column (table field : String)
  | pyBool (b : Bool)
deriving DecidableEq, Repr

/-- The Python `is` operator on such objects. -/
def pyIs (a b : PyObject) : Bool := a == b

/-- The filter expression of `UserService.get_users`, evaluated by the
Python interpreter before the query runs: `User.is_active is True`
compares the column object with `True` by identity. -/
def get_users_filter : Bool :=
  pyIs (PyObject.column "users" "is_active") (PyObject.pyBool true)

/-- `UserService.get_users`:
`select(User).where(User.is_active is True).offset(skip).limit(limit)`. -/
def get_users (db : DB) (skip limit : Nat) : List LocalUser :=
  (((db.filter (fun _ => get_users_filter)).drop skip).take limit)

/-- `UserService.link_supabase_user`: look up by email; if absent return
`None`, else set `supabase_user_id` and commit. -/
def link_supabase_user (db : DB) (email : String) (supabase_user_id : String) :
    DB × Except PyError (Option LocalUser) :=
  match get_user_by_email db email with
  | none => (db, .ok none)
  | some w =>
    match updateRow db { w with supabase_user_id := some supabase_user_id } with
    | .ok db' =>
      (db', .ok (some { w with supabase_user_id := some supabase_user_id }))
    | .error _ => (db, .error (.exn "IntegrityError"))

/-! ## External provider response types (supabase client, boundary only) -/

/-- The `user_metadata` dict of a provider user.  Only the two keys the
service reads are modelled; `none` models an absent key.  A `none` value
for the whole dict models Python `None`. -/
structure Metadata where
  local_user_id : Option Nat
  name : Option String
deriving DecidableEq, Repr

/-- A provider-side user object. -/
structure ExternalUser where
  id : String
  user_metadata : Option Metadata
deriving DecidableEq, Repr

/-- A provider session. -/
structure Session where
  access_token : String
  refresh_token : String
deriving DecidableEq, Repr

/-- Response of `auth.sign_in_with_password` / `auth.sign_up`. -/
structure AuthResponse where
  user : Option ExternalUser
  session : Option Session
deriving DecidableEq, Repr

/-! ## AuthService (`src/app/services/auth.py`) -/

/-- Lines 108-115 of `AuthService.sign_in` (and, with an extra `int()`
cast that cannot change a `Nat`-valued hint, lines 213-223 of
`get_current_user`): when the lookup by supabase id missed, read the
`local_user_id` hint from `user_metadata`, look the row up by that id
and, when found, overwrite its `supabase_user_id` and commit.
`if local_user_id:` is a Python truthiness test, so a hint of `0` is
skipped like an absent one.  Returns the database together with the row
found, or the raised `IntegrityError` when the commit fails. -/
def sign_in_hint_step (db : DB) (u : ExternalUser) :
    Except PyError (DB × Option LocalUser) :=
  match u.user_metadata with
  | none => .ok (db, none)
  | some md =>
    match md.local_user_id with
    | none => .ok (db, none)
    | some lid =>
      if lid = 0 then .ok (db, none)
      else
        match get_user_by_id db lid with
        | none => .ok (db, none)
        | some w =>
          match updateRow db { w with supabase_user_id := some u.id } with
          | .ok db' => .ok (db', some { w with supabase_user_id := some u.id })
          | .error _ => .error (.exn "IntegrityError")

/-- Lines 104-133 of `AuthService.sign_in`: resolve the authenticated
provider user to a local row.  The email branch calls
`link_supabase_user`, which re-runs the same email query on the same
session (`link_supabase_user_found` below shows the call reduces to
exactly the inlined update); its `None` return is unreachable there.
The create branch reads `response.user.user_metadata.get("name", ...)`
without a `None` guard, so a `None` metadata raises `AttributeError`. -/
def sign_in_resolve (db : DB) (u : ExternalUser) (email : String) :
    Except PyError (DB × LocalUser) :=
  match get_user_by_supabase_id db u.id with
  | some lu => .ok (db, lu)
  | none =>
    match sign_in_hint_step db u with
    | .error e => .error e
    | .ok (db1, some lu) => .ok (db1, lu)
    | .ok (db1, none) =>
      match get_user_by_email db1 email with
      | some w =>
        match updateRow db1 { w with supabase_user_id := some u.id } with
        | .ok db2 => .ok (db2, { w with supabase_user_id := some u.id })
        | .error _ => .error (.exn "IntegrityError")
      | none =>
        match u.user_metadata with
        | none => .error (.exn "AttributeError")
        | some md =>
          match create_user db1 { name := md.name.getD "Unknown", email := email } u.id with
          | (db2, .ok lu) => .ok (db2, lu)
          | (_, .error e) => .error e

/-- Successful payload of `AuthService.sign_in`. -/
structure SignInOk where
  user : LocalUser
  access_token : String
  refresh_token : String
  token_type : String
deriving DecidableEq, Repr

/-- `AuthService.sign_in`: authenticate against the provider, resolve the
local row, and assemble the token payload.  A provider exception or any
non-`HTTPException` failure inside the body is converted to 401
(`except Exception` arm, lines 145-149); an `HTTPException` is re-raised
unchanged.  Every error path leaves the durable database unchanged: the
only successful commits are immediately followed by a successful
return. -/
def sign_in (db : DB) (ext : ExtResult AuthResponse) (email : String) :
    DB × Except HTTPError SignInOk :=
  match ext with
  | .err m => (db, .error ⟨401, "Login failed: " ++ m⟩)
  | .ok resp =>
    match resp.user, resp.session with
    | some u, some s =>
      (match sign_in_resolve db u email with
      | .ok (db', lu) =>
        (db', .ok ⟨lu, s.access_token, s.refresh_token, "bearer"⟩)
      | .error (.http e) => (db, .error e)
      | .error (.exn m) => (db, .error ⟨401, "Login failed: " ++ m⟩))
    | _, _ => (db, .error ⟨401, "Invalid credentials"⟩)

/-- `AuthService.sign_up` (lines 24-83): INSERT the local row and `flush`
(constraint check), call the provider, then attach the returned supabase
id and commit.  Any exception—including the inner 400 `HTTPException`
raised when the provider response lacks a user—is caught by the single
`except Exception` arm and re-raised as 400 `Registration failed`.  On
such an error the flushed row was never committed, so the durable
database is the original one. -/
def sign_up (db : DB) (email name : String) (ext : ExtResult AuthResponse) :
    DB × Except HTTPError (LocalUser × Option Session) :=
  match insertUser db
      { id := nextId db, supabase_user_id := none, name := name,
        email := email, is_active := true } with
  | .error _ => (db, .error ⟨400, "Registration failed: IntegrityError"⟩)
  | .ok dbFlushed =>
    match ext with
    | .err m => (db, .error ⟨400, "Registration failed: " ++ m⟩)
    | .ok resp =>
      match resp.user with
      | none =>
        (db, .error ⟨400,
          "Registration failed: 400: Failed to create user in Supabase"⟩)
      | some eu =>
        match updateRow dbFlushed
            { id := nextId db, supabase_user_id := some eu.id,
              name := name, email := email, is_active := true } with
        | .ok db' =>
          (db', .ok ({ id := nextId db, supabase_user_id := some eu.id,
                       name := name, email := email, is_active := true },
            resp.session))
        | .error _ => (db, .error ⟨400, "Registration failed: IntegrityError"⟩)

/-- `AuthService.sign_out` (lines 151-161): provider failure is wrapped as
400, not 401. -/
def sign_out (ext : ExtResult Unit) : Except HTTPError String :=
  match ext with
  | .ok _ => .ok "Successfully signed out"
  | .err m => .error ⟨400, "Sign out failed: " ++ m⟩

/-- Response of `auth.refresh_session`. -/
structure RefreshResponse where
  session : Option Session
deriving DecidableEq, Repr

/-- `AuthService.refresh_token` (lines 163-182): provider failure, and a
response without a session, both surface as 401.  (The inner 401
`HTTPException` of the `else` branch is caught by the blanket
`except Exception` and re-wrapped, still as 401.) -/
def refresh_token (ext : ExtResult RefreshResponse) :
    Except HTTPError (String × String × String) :=
  match ext with
  | .err m => .error ⟨401, "Token refresh failed: " ++ m⟩
  | .ok resp =>
    match resp.session with
    | some s => .ok (s.access_token, s.refresh_token, "bearer")
    | none => .error ⟨401, "Token refresh failed: 401: Invalid refresh token"⟩

/-- Response of `auth.get_user`. -/
structure GetUserResponse where
  user : Option ExternalUser
deriving DecidableEq, Repr

/-- `AuthService.get_current_user` (lines 184-239): validate the token with
the provider, resolve the local row by supabase id, then by the metadata
hint (committing the attached supabase id), else 401.  Provider failure
and a missing provider user also surface as 401. -/
def get_current_user (db : DB) (ext : ExtResult GetUserResponse) :
    DB × Except HTTPError LocalUser :=
  match ext with
  | .err m => (db, .error ⟨401, "Authentication failed: " ++ m⟩)
  | .ok resp =>
    match resp.user with
    | none => (db, .error ⟨401, "Invalid token"⟩)
    | some u =>
      match get_user_by_supabase_id db u.id with
      | some lu => (db, .ok lu)
      | none =>
        match sign_in_hint_step db u with
        | .error (.http e) => (db, .error e)
        | .error (.exn m) => (db, .error ⟨401, "Authentication failed: " ++ m⟩)
        | .ok (db1, some lu) => (db1, .ok lu)
        | .ok (db1, none) =>
          (db1, .error ⟨401, "User not found in local database"⟩)

/-- `AuthService.reset_password` (lines 241-250): provider failure is
wrapped as 400, not 401. -/
def reset_password (ext : ExtResult Unit) : Except HTTPError String :=
  match ext with
  | .ok _ => .ok "Password reset email sent"
  | .err m => .error ⟨400, "Password reset failed: " ++ m⟩

/-! ## Signup endpoint (`src/app/api/v1/endpoints/auth.py`) -/

/-- Body of `SignUpResponse` (`src/app/schemas/auth.py`); the `user` dict
is carried as the row it is built from. -/
structure SignUpBody where
  message : String
  user : LocalUser
  email_confirmation_required : Bool
  access_token : Option String
  refresh_token : Option String
deriving DecidableEq, Repr

/-- `POST /signup` handler (`sign_up` in
`src/app/api/v1/endpoints/auth.py`): on service success it returns
status 201 with tokens when a session is present, and
`email_confirmation_required = true` without tokens when the provider
returned a null session. -/
def sign_up_endpoint (db : DB) (email name : String)
    (ext : ExtResult AuthResponse) :
    DB × Except HTTPError (Nat × SignUpBody) :=
  match sign_up db email name ext with
  | (db', .error e) => (db', .error e)
  | (db', .ok (lu, some s)) =>
    (db', .ok (201,
      ⟨"User created and signed in successfully", lu, false,
        some s.access_token, some s.refresh_token⟩))
  | (db', .ok (lu, none)) =>
    (db', .ok (201,
      ⟨"User created successfully. Please check your email to confirm your account.",
        lu, true, none, none⟩))

/-- Status code of a service outcome, `none` on success. -/
def statusOf {α : Type} : Except HTTPError α → Option Nat
  | .error e => some e.status_code
  | .ok _ => none

/-! ## Storage-layer lemmas -/

theorem not_any_forall {db : DB} {p : LocalUser → Bool} (h : ¬ db.any p = true) :
    ∀ x ∈ db, ¬ p x = true := by
  rw [List.any_eq_true] at h
  push_neg at h
  exact h

theorem id_le_maxId {db : DB} {x : LocalUser} (hx : x ∈ db) :
    x.id ≤ (db.map (fun u => u.id)).foldr max 0 := by
  induction db with
  | nil => cases hx
  | cons a l ih =>
    simp only [List.map_cons, List.foldr_cons]
    rcases List.mem_cons.mp hx with h | h
    · subst h; exact le_max_left _ _
    · exact le_trans (ih h) (le_max_right _ _)

theorem nextId_fresh {db : DB} {x : LocalUser} (hx : x ∈ db) :
    x.id ≠ nextId db := by
  have := id_le_maxId hx
  unfold nextId
  omega

theorem insertUser_invariant {db db' : DB} {u : LocalUser}
    (h : insertUser db u = .ok db') (hinv : Invariant db) : Invariant db' := by
  unfold insertUser at h
  split at h
  · simp at h
  split at h
  · simp at h
  split at h
  · simp at h
  rename_i hmail hsid hid
  injection h with h
  subst h
  have hmail' := not_any_forall hmail
  have hsid' := not_any_forall hsid
  have hid' := not_any_forall hid
  rw [Invariant, List.pairwise_append]
  refine ⟨hinv, by simp [List.pairwise_cons], ?_⟩
  intro a ha b hb
  simp only [List.mem_singleton] at hb
  subst hb
  refine ⟨?_, ?_, ?_⟩
  · have := hid' a ha
    simp only [beq_iff_eq] at this
    exact this
  · have := hmail' a ha
    simp only [beq_iff_eq] at this
    exact this
  · intro hsome heq
    have := hsid' a ha
    rw [← heq] at this
    simp [hsome] at this

theorem updateRow_invariant {db db' : DB} {u : LocalUser}
    (h : updateRow db u = .ok db') (hinv : Invariant db) : Invariant db' := by
  unfold updateRow at h
  split at h
  · simp at h
  split at h
  · simp at h
  rename_i hmail hsid
  injection h with h
  subst h
  have Hm : ∀ x ∈ db, x.id ≠ u.id → x.email ≠ u.email := by
    intro x hx hne heq
    exact (not_any_forall hmail) x hx (by simp [hne, heq])
  have Hs : ∀ x ∈ db, x.id ≠ u.id → u.supabase_user_id.isSome = true →
      x.supabase_user_id ≠ u.supabase_user_id := by
    intro x hx hne hsome heq
    exact (not_any_forall hsid) x hx (by simp [hne, hsome, heq])
  rw [Invariant, List.pairwise_map]
  refine List.Pairwise.imp_of_mem ?_ hinv
  intro a b ha hb hab
  obtain ⟨hid, hml, hsd⟩ := hab
  by_cases hau : a.id = u.id
  · have hbu : ¬ b.id = u.id := fun hb' => hid (hau.trans hb'.symm)
    rw [if_pos (show (a.id == u.id) = true by simp [hau]),
      if_neg (show ¬ (b.id == u.id) = true by simp [hbu])]
    refine ⟨fun he => hbu (he.symm), Ne.symm (Hm b hb hbu), ?_⟩
    intro hsome heq
    exact Hs b hb hbu hsome heq.symm
  · by_cases hbu : b.id = u.id
    · rw [if_neg (show ¬ (a.id == u.id) = true by simp [hau]),
        if_pos (show (b.id == u.id) = true by simp [hbu])]
      refine ⟨hau, Hm a ha hau, ?_⟩
      intro hsome heq
      rcases hv : u.supabase_user_id with _ | s
      · rw [hv] at heq
        rw [heq] at hsome
        simp at hsome
      · exact Hs a ha hau (by rw [hv]; rfl) heq
    · rw [if_neg (show ¬ (a.id == u.id) = true by simp [hau]),
        if_neg (show ¬ (b.id == u.id) = true by simp [hbu])]
      exact ⟨hid, hml, hsd⟩

/-- `link_supabase_user` on an email it finds reduces to the update of the
found row: this is exactly the expression inlined in the email branch of
`sign_in_resolve`, so the inlining is faithful to the indirection through
`UserService.link_supabase_user` in the source. -/
theorem link_supabase_user_found {db : DB} {email sid : String} {w : LocalUser}
    (h : get_user_by_email db email = some w) :
    link_supabase_user db email sid =
      (match updateRow db { w with supabase_user_id := some sid } with
       | .ok db' => (db', .ok (some { w with supabase_user_id := some sid }))
       | .error _ => (db, .error (.exn "IntegrityError"))) := by
  unfold link_supabase_user
  rw [h]

/-- Exhaustive description of the hint step's outcome. -/
theorem sign_in_hint_step_spec (db : DB) (u : ExternalUser) :
    sign_in_hint_step db u = .ok (db, none) ∨
    (∃ md lid w db', u.user_metadata = some md ∧ md.local_user_id = some lid ∧
      lid ≠ 0 ∧ get_user_by_id db lid = some w ∧
      updateRow db { w with supabase_user_id := some u.id } = .ok db' ∧
      sign_in_hint_step db u =
        .ok (db', some { w with supabase_user_id := some u.id })) ∨
    sign_in_hint_step db u = .error (.exn "IntegrityError") := by
  cases hmd : u.user_metadata with
  | none => exact Or.inl (by simp [sign_in_hint_step, hmd])
  | some md =>
    cases hlid : md.local_user_id with
    | none => exact Or.inl (by simp [sign_in_hint_step, hmd, hlid])
    | some lid =>
      by_cases h0 : lid = 0
      · exact Or.inl (by simp [sign_in_hint_step, hmd, hlid, h0])
      · cases hw : get_user_by_id db lid with
        | none => exact Or.inl (by simp [sign_in_hint_step, hmd, hlid, h0, hw])
        | some w =>
          cases hupd : updateRow db { w with supabase_user_id := some u.id } with
          | error e =>
            exact Or.inr (Or.inr
              (by simp [sign_in_hint_step, hmd, hlid, h0, hw, hupd]))
          | ok db' =>
            exact Or.inr (Or.inl ⟨md, lid, w, db', rfl, hlid, h0, hw, hupd,
              by simp [sign_in_hint_step, hmd, hlid, h0, hw, hupd]⟩)

theorem sign_in_hint_step_invariant {db db1 : DB} {u : ExternalUser}
    {o : Option LocalUser} (h : sign_in_hint_step db u = .ok (db1, o))
    (hinv : Invariant db) : Invariant db1 := by
  rcases sign_in_hint_step_spec db u with hs |
      ⟨md, lid, w, db', hmd, hlid, h0, hw, hupd, hs⟩ | hs <;> rw [hs] at h
  · simp only [Except.ok.injEq, Prod.mk.injEq] at h
    rw [← h.1]
    exact hinv
  · simp only [Except.ok.injEq, Prod.mk.injEq] at h
    rw [← h.1]
    exact updateRow_invariant hupd hinv
  · simp at h

/-- A hint step that found nothing did not touch the database. -/
theorem sign_in_hint_step_none {db db1 : DB} {u : ExternalUser}
    (h : sign_in_hint_step db u = .ok (db1, none)) : db1 = db := by
  rcases sign_in_hint_step_spec db u with hs |
      ⟨md, lid, w, db', hmd, hlid, h0, hw, hupd, hs⟩ | hs <;> rw [hs] at h
  · simp only [Except.ok.injEq, Prod.mk.injEq] at h
    exact h.1.symm
  · simp at h
  · simp at h

theorem create_user_invariant (db : DB) (uc : UserCreate) (sid : String)
    (hinv : Invariant db) : Invariant (create_user db uc sid).1 := by
  unfold create_user
  split
  · exact hinv
  split
  · exact hinv
  split
  · rename_i heq
    exact insertUser_invariant heq hinv
  · exact hinv

theorem update_user_invariant (db : DB) (user_id : Nat) (uu : UserUpdate)
    (hinv : Invariant db) : Invariant (update_user db user_id uu).1 := by
  unfold update_user
  split
  · exact hinv
  split
  · rename_i heq
    exact updateRow_invariant heq hinv
  · exact hinv

theorem delete_user_invariant (db : DB) (user_id : Nat)
    (hinv : Invariant db) : Invariant (delete_user db user_id).1 := by
  unfold delete_user
  split
  · exact hinv
  split
  · rename_i heq
    exact updateRow_invariant heq hinv
  · exact hinv

theorem link_supabase_user_invariant (db : DB) (email sid : String)
    (hinv : Invariant db) : Invariant (link_supabase_user db email sid).1 := by
  unfold link_supabase_user
  split
  · exact hinv
  split
  · rename_i heq
    exact updateRow_invariant heq hinv
  · exact hinv

theorem sign_in_resolve_invariant {db : DB} {u : ExternalUser} {email : String}
    {db' : DB} {lu : LocalUser}
    (h : sign_in_resolve db u email = .ok (db', lu)) (hinv : Invariant db) :
    Invariant db' := by
  unfold sign_in_resolve at h
  split at h
  · simp only [Except.ok.injEq, Prod.mk.injEq] at h
    obtain ⟨rfl, rfl⟩ := h
    exact hinv
  split at h
  · simp at h
  · rename_i hstep
    simp only [Except.ok.injEq, Prod.mk.injEq] at h
    obtain ⟨rfl, rfl⟩ := h
    exact sign_in_hint_step_invariant hstep hinv
  · rename_i db1 hstep
    have hdb1 : Invariant db1 := sign_in_hint_step_invariant hstep hinv
    split at h
    · split at h
      · rename_i hupd
        simp only [Except.ok.injEq, Prod.mk.injEq] at h
        obtain ⟨rfl, rfl⟩ := h
        exact updateRow_invariant hupd hdb1
      · simp at h
    · split at h
      · simp at h
      · rename_i md hmd
        split at h
        · rename_i db2 lu2 hcreate
          simp only [Except.ok.injEq, Prod.mk.injEq] at h
          obtain ⟨rfl, rfl⟩ := h
          have h2 := create_user_invariant db1
            { name := md.name.getD "Unknown", email := email } u.id hdb1
          rw [hcreate] at h2
          exact h2
        · simp at h

theorem sign_in_invariant (db : DB) (ext : ExtResult AuthResponse)
    (email : String) (hinv : Invariant db) :
    Invariant (sign_in db ext email).1 := by
  unfold sign_in
  split
  · exact hinv
  split
  · split
    · rename_i heq
      exact sign_in_resolve_invariant heq hinv
    · exact hinv
    · exact hinv
  · exact hinv

theorem sign_up_invariant (db : DB) (email name : String)
    (ext : ExtResult AuthResponse) (hinv : Invariant db) :
    Invariant (sign_up db email name ext).1 := by
  unfold sign_up
  split
  · exact hinv
  rename_i hins
  split
  · exact hinv
  split
  · exact hinv
  split
  · rename_i hupd
    exact updateRow_invariant hupd (insertUser_invariant hins hinv)
  · exact hinv

theorem get_current_user_invariant (db : DB) (ext : ExtResult GetUserResponse)
    (hinv : Invariant db) : Invariant (get_current_user db ext).1 := by
  unfold get_current_user
  split
  · exact hinv
  split
  · exact hinv
  split
  · exact hinv
  split
  · exact hinv
  · exact hinv
  · rename_i hstep
    exact sign_in_hint_step_invariant hstep hinv
  · rename_i hstep
    exact sign_in_hint_step_invariant hstep hinv

/-! ## Lookup and write-success lemmas -/

theorem get_user_by_email_none_forall {db : DB} {e : String}
    (h : get_user_by_email db e = none) : ∀ x ∈ db, x.email ≠ e := by
  intro x hx
  have := List.find?_eq_none.mp h x hx
  simpa using this

theorem get_user_by_supabase_id_none_forall {db : DB} {s : String}
    (h : get_user_by_supabase_id db s = none) :
    ∀ x ∈ db, x.supabase_user_id ≠ some s := by
  intro x hx
  have := List.find?_eq_none.mp h x hx
  simpa using this

theorem get_user_by_id_mem {db : DB} {i : Nat} {w : LocalUser}
    (h : get_user_by_id db i = some w) : w ∈ db ∧ w.id = i :=
  ⟨List.mem_of_find?_eq_some h, by simpa using List.find?_some h⟩

theorem get_user_by_email_mem {db : DB} {e : String} {w : LocalUser}
    (h : get_user_by_email db e = some w) : w ∈ db ∧ w.email = e :=
  ⟨List.mem_of_find?_eq_some h, by simpa using List.find?_some h⟩

theorem insertUser_ok {db : DB} {u : LocalUser}
    (h1 : db.any (fun x => x.email == u.email) = false)
    (h2 : db.any (fun x => u.supabase_user_id.isSome &&
      (x.supabase_user_id == u.supabase_user_id)) = false)
    (h3 : db.any (fun x => x.id == u.id) = false) :
    insertUser db u = .ok (db ++ [u]) := by
  unfold insertUser
  rw [h1, h2, h3]
  rfl

theorem updateRow_ok {db : DB} {u : LocalUser}
    (h1 : db.any (fun x => x.id != u.id && x.email == u.email) = false)
    (h2 : db.any (fun x => x.id != u.id && u.supabase_user_id.isSome &&
      (x.supabase_user_id == u.supabase_user_id)) = false) :
    updateRow db u = .ok (db.map (fun x => if x.id == u.id then u else x)) := by
  unfold updateRow
  rw [h1, h2]
  rfl

theorem id_email_rel_symm :
    Symmetric (fun a b : LocalUser => a.id ≠ b.id ∧ a.email ≠ b.email) := by
  intro a b h
  exact ⟨fun e => h.1 e.symm, fun e => h.2 e.symm⟩

theorem invariant_email_ne {db : DB} (hinv : Invariant db) {x w : LocalUser}
    (hx : x ∈ db) (hw : w ∈ db) (hne : x.id ≠ w.id) : x.email ≠ w.email := by
  have hpw : db.Pairwise (fun a b => a.id ≠ b.id ∧ a.email ≠ b.email) :=
    hinv.imp (fun h => ⟨h.1, h.2.1⟩)
  exact (List.Pairwise.forall id_email_rel_symm hpw hx hw
    (fun e => hne (congrArg LocalUser.id e))).2

/-- Attaching an external id that no row holds to a member row always
commits. -/
theorem updateRow_link_ok {db : DB} {w : LocalUser} {s : String}
    (hinv : Invariant db) (hw : w ∈ db)
    (hnos : get_user_by_supabase_id db s = none) :
    updateRow db { w with supabase_user_id := some s } =
      .ok (db.map (fun x =>
        if x.id == w.id then { w with supabase_user_id := some s } else x)) := by
  have h1 : db.any (fun x => x.id != w.id && x.email == w.email) = false := by
    rw [List.any_eq_false]
    intro x hx
    simp only [Bool.and_eq_true, bne_iff_ne, ne_eq, beq_iff_eq, not_and]
    intro hne
    exact invariant_email_ne hinv hx hw hne
  have h2 : db.any (fun x => x.id != w.id &&
      (some s : Option String).isSome && (x.supabase_user_id == some s)) = false := by
    rw [List.any_eq_false]
    intro x hx
    have := get_user_by_supabase_id_none_forall hnos x hx
    simp [this]
  exact updateRow_ok h1 h2

theorem map_update_append (db : DB) (u0 u1 : LocalUser) (hid : u0.id = u1.id)
    (hfresh : ∀ x ∈ db, x.id ≠ u1.id) :
    (db ++ [u0]).map (fun x => if x.id == u1.id then u1 else x) = db ++ [u1] := by
  rw [List.map_append]
  congr 1
  · have hcong : ∀ x ∈ db, (if x.id == u1.id then u1 else x) = id x := by
      intro x hx
      simp [hfresh x hx]
    rw [List.map_congr_left hcong, List.map_id]
  · simp [hid]

theorem find_id_map_update {db : DB} {w w' : LocalUser}
    (hinv : db.Pairwise Distinct) (hw : w ∈ db) (hid : w'.id = w.id) :
    (db.map (fun x => if x.id == w.id then w' else x)).find?
      (fun x => x.id == w.id) = some w' := by
  induction db with
  | nil => cases hw
  | cons a rest ih =>
    rcases List.mem_cons.mp hw with rfl | hw'
    · rw [List.map_cons, if_pos (by simp)]
      exact List.find?_cons_of_pos _ (by simp [hid])
    · have hane : a.id ≠ w.id := ((List.pairwise_cons.mp hinv).1 w hw').1
      rw [List.map_cons, if_neg (by simp [hane]),
        List.find?_cons_of_neg _ (by simp [hane])]
      exact ih (List.pairwise_cons.mp hinv).2 hw'

/-! ## Path-reduction lemmas -/

theorem sign_in_hint_step_found {db db' : DB} {u : ExternalUser} {md : Metadata}
    {lid : Nat} {w : LocalUser}
    (hmd : u.user_metadata = some md) (hlid : md.local_user_id = some lid)
    (h0 : lid ≠ 0) (hw : get_user_by_id db lid = some w)
    (hupd : updateRow db { w with supabase_user_id := some u.id } = .ok db') :
    sign_in_hint_step db u =
      .ok (db', some { w with supabase_user_id := some u.id }) := by
  simp [sign_in_hint_step, hmd, hlid, h0, hw, hupd]

/-- When the metadata carries no usable hint, or the hinted id is absent,
the hint step finds nothing and leaves the database unchanged. -/
theorem sign_in_hint_step_miss {db : DB} {u : ExternalUser}
    (h : ∀ md lid, u.user_metadata = some md → md.local_user_id = some lid →
      lid ≠ 0 → get_user_by_id db lid = none) :
    sign_in_hint_step db u = .ok (db, none) := by
  cases hmd : u.user_metadata with
  | none => simp [sign_in_hint_step, hmd]
  | some md =>
    cases hlid : md.local_user_id with
    | none => simp [sign_in_hint_step, hmd, hlid]
    | some lid =>
      by_cases h0 : lid = 0
      · simp [sign_in_hint_step, hmd, hlid, h0]
      · simp [sign_in_hint_step, hmd, hlid, h0, h md lid hmd hlid h0]

theorem sign_in_resolve_fast {db : DB} {u : ExternalUser} {email : String}
    {lu : LocalUser} (h : get_user_by_supabase_id db u.id = some lu) :
    sign_in_resolve db u email = .ok (db, lu) := by
  simp [sign_in_resolve, h]

theorem sign_in_resolve_hint {db db1 : DB} {u : ExternalUser} (email : String)
    {w : LocalUser}
    (hsid : get_user_by_supabase_id db u.id = none)
    (hstep : sign_in_hint_step db u = .ok (db1, some w)) :
    sign_in_resolve db u email = .ok (db1, w) := by
  simp [sign_in_resolve, hsid, hstep]

theorem sign_in_resolve_email {db db2 : DB} {u : ExternalUser} {email : String}
    {w : LocalUser}
    (hsid : get_user_by_supabase_id db u.id = none)
    (hstep : sign_in_hint_step db u = .ok (db, none))
    (hmail : get_user_by_email db email = some w)
    (hupd : updateRow db { w with supabase_user_id := some u.id } = .ok db2) :
    sign_in_resolve db u email =
      .ok (db2, { w with supabase_user_id := some u.id }) := by
  simp [sign_in_resolve, hsid, hstep, hmail, hupd]

theorem sign_in_resolve_create {db db2 : DB} {u : ExternalUser} {email : String}
    {md : Metadata} {lu : LocalUser}
    (hsid : get_user_by_supabase_id db u.id = none)
    (hstep : sign_in_hint_step db u = .ok (db, none))
    (hmail : get_user_by_email db email = none)
    (hmd : u.user_metadata = some md)
    (hcreate : create_user db { name := md.name.getD "Unknown", email := email }
      u.id = (db2, .ok lu)) :
    sign_in_resolve db u email = .ok (db2, lu) := by
  simp [sign_in_resolve, hsid, hstep, hmail, hmd, hcreate]

theorem sign_in_resolve_null_metadata {db : DB} {u : ExternalUser}
    {email : String}
    (hsid : get_user_by_supabase_id db u.id = none)
    (hmd : u.user_metadata = none)
    (hmail : get_user_by_email db email = none) :
    sign_in_resolve db u email = .error (.exn "AttributeError") := by
  have hstep : sign_in_hint_step db u = .ok (db, none) := by
    simp [sign_in_hint_step, hmd]
  simp [sign_in_resolve, hsid, hstep, hmail, hmd]

theorem sign_in_of_resolve_ok {db db' : DB} {u : ExternalUser} {s : Session}
    {email : String} {lu : LocalUser}
    (h : sign_in_resolve db u email = .ok (db', lu)) :
    sign_in db (.ok ⟨some u, some s⟩) email =
      (db', .ok ⟨lu, s.access_token, s.refresh_token, "bearer"⟩) := by
  simp [sign_in, h]

theorem sign_in_of_resolve_exn {db : DB} {u : ExternalUser} {s : Session}
    {email m : String}
    (h : sign_in_resolve db u email = .error (.exn m)) :
    sign_in db (.ok ⟨some u, some s⟩) email =
      (db, .error ⟨401, "Login failed: " ++ m⟩) := by
  simp [sign_in, h]

/-! ## Success lemmas for create_user and sign_up -/

theorem create_user_success {db : DB} (uc : UserCreate) {sid : String}
    (hmail : get_user_by_email db uc.email = none)
    (hsid : get_user_by_supabase_id db sid = none) :
    create_user db uc sid =
      (db ++ [{ id := nextId db, supabase_user_id := some sid, name := uc.name,
                email := uc.email, is_active := true }],
       .ok { id := nextId db, supabase_user_id := some sid, name := uc.name,
             email := uc.email, is_active := true }) := by
  have h1 : db.any (fun x => x.email == uc.email) = false := by
    rw [List.any_eq_false]
    intro x hx
    simp [get_user_by_email_none_forall hmail x hx]
  have h2 : db.any (fun x => (some sid : Option String).isSome &&
      (x.supabase_user_id == some sid)) = false := by
    rw [List.any_eq_false]
    intro x hx
    simp [get_user_by_supabase_id_none_forall hsid x hx]
  have h3 : db.any (fun x => x.id == nextId db) = false := by
    rw [List.any_eq_false]
    intro x hx
    simp [nextId_fresh hx]
  have hins : insertUser db
      { id := nextId db, supabase_user_id := some sid, name := uc.name,
        email := uc.email, is_active := true } = .ok (db ++
      [{ id := nextId db, supabase_user_id := some sid, name := uc.name,
         email := uc.email, is_active := true }]) :=
    insertUser_ok h1 h2 h3
  simp [create_user, hmail, hsid, hins]

/-- `sign_up` against an email that already has a row fails at the storage
layer's flush, before the provider is even called. -/
theorem sign_up_dup_email {db : DB} {email : String} {w : LocalUser}
    (hw : get_user_by_email db email = some w) (name : String)
    (ext : ExtResult AuthResponse) :
    sign_up db email name ext =
      (db, .error ⟨400, "Registration failed: IntegrityError"⟩) := by
  have h1 : db.any (fun x => x.email == email) = true := by
    rw [List.any_eq_true]
    exact ⟨w, (get_user_by_email_mem hw).1, by simp [(get_user_by_email_mem hw).2]⟩
  simp [sign_up, insertUser, h1]

/-- `sign_up` when the row is fresh and the provider returns a user. -/
theorem sign_up_success {db : DB} (email name : String) {eu : ExternalUser}
    (sess : Option Session)
    (hmail : get_user_by_email db email = none)
    (hsid : get_user_by_supabase_id db eu.id = none) :
    sign_up db email name (.ok ⟨some eu, sess⟩) =
      (db ++ [⟨nextId db, some eu.id, name, email, true⟩],
       .ok (⟨nextId db, some eu.id, name, email, true⟩, sess)) := by
  have h1 : db.any (fun x => x.email == email) = false := by
    rw [List.any_eq_false]
    intro x hx
    simp [get_user_by_email_none_forall hmail x hx]
  have h2 : db.any (fun x => (none : Option String).isSome &&
      (x.supabase_user_id == none)) = false := by
    simp
  have h3 : db.any (fun x => x.id == nextId db) = false := by
    rw [List.any_eq_false]
    intro x hx
    simp [nextId_fresh hx]
  have hins : insertUser db ⟨nextId db, none, name, email, true⟩ =
      .ok (db ++ [(⟨nextId db, none, name, email, true⟩ : LocalUser)]) :=
    insertUser_ok h1 h2 h3
  have h1' : (db ++ [(⟨nextId db, none, name, email, true⟩ : LocalUser)]).any
      (fun x => x.id != nextId db && x.email == email) = false := by
    rw [List.any_eq_false]
    intro x hx
    rcases List.mem_append.mp hx with hx' | hx'
    · simp [get_user_by_email_none_forall hmail x hx']
    · simp only [List.mem_singleton] at hx'
      subst hx'
      simp
  have h2' : (db ++ [(⟨nextId db, none, name, email, true⟩ : LocalUser)]).any
      (fun x => x.id != nextId db && (some eu.id : Option String).isSome &&
        (x.supabase_user_id == some eu.id)) = false := by
    rw [List.any_eq_false]
    intro x hx
    rcases List.mem_append.mp hx with hx' | hx'
    · simp [get_user_by_supabase_id_none_forall hsid x hx']
    · simp only [List.mem_singleton] at hx'
      subst hx'
      simp
  have hupd : updateRow (db ++ [(⟨nextId db, none, name, email, true⟩ : LocalUser)])
      ⟨nextId db, some eu.id, name, email, true⟩ =
      .ok ((db ++ [(⟨nextId db, none, name, email, true⟩ : LocalUser)]).map
        (fun x => if x.id == nextId db then
          ⟨nextId db, some eu.id, name, email, true⟩ else x)) :=
    updateRow_ok h1' h2'
  have hmap := map_update_append db ⟨nextId db, none, name, email, true⟩
    ⟨nextId db, some eu.id, name, email, true⟩ rfl (fun x hx => nextId_fresh hx)
  rw [hmap] at hupd
  simp [sign_up, hins, hupd]

instance (db : DB) : Decidable (EmailUnique db) := by
  unfold EmailUnique; infer_instance

instance (db : DB) : Decidable (SidUnique db) := by
  unfold SidUnique; infer_instance

instance (db : DB) : Decidable (BothUnique db) := by
  unfold BothUnique; infer_instance

/-! ## Claim theorems -/

/-- C2: starting from a state satisfying the storage constraints, every
operation of the user service (`create_user`, `update_user`,
`delete_user`, `link_supabase_user`) and every database-touching
operation of the auth service (`sign_up`, `sign_in`, `get_current_user`)
leaves a state in which at most one LocalUser holds any given email and
at most one LocalUser holds any given set external id. -/
theorem services_preserve_uniqueness (db : DB) (hinv : Invariant db)
    (uc : UserCreate) (sid : String) (user_id : Nat) (uu : UserUpdate)
    (em1 sid2 em2 nm em3 : String)
    (ext : ExtResult AuthResponse) (ext2 : ExtResult AuthResponse)
    (ext3 : ExtResult GetUserResponse) :
    BothUnique (create_user db uc sid).1 ∧
    BothUnique (update_user db user_id uu).1 ∧
    BothUnique (delete_user db user_id).1 ∧
    BothUnique (link_supabase_user db em1 sid2).1 ∧
    BothUnique (sign_up db em2 nm ext).1 ∧
    BothUnique (sign_in db ext2 em3).1 ∧
    BothUnique (get_current_user db ext3).1 :=
  ⟨(create_user_invariant db uc sid hinv).bothUnique,
   (update_user_invariant db user_id uu hinv).bothUnique,
   (delete_user_invariant db user_id hinv).bothUnique,
   (link_supabase_user_invariant db em1 sid2 hinv).bothUnique,
   (sign_up_invariant db em2 nm ext hinv).bothUnique,
   (sign_in_invariant db ext2 em3 hinv).bothUnique,
   (get_current_user_invariant db ext3 hinv).bothUnique⟩

theorem services_preserve_uniqueness_witness :
    Invariant [(⟨1, some "s1", "A", "a@x", true⟩ : LocalUser)] ∧
    (BothUnique (create_user [⟨1, some "s1", "A", "a@x", true⟩]
        ⟨"B", "b@x"⟩ "s2").1 ∧
     BothUnique (update_user [⟨1, some "s1", "A", "a@x", true⟩] 1
        ⟨some "A2", none, none⟩).1 ∧
     BothUnique (delete_user [⟨1, some "s1", "A", "a@x", true⟩] 1).1 ∧
     BothUnique (link_supabase_user [⟨1, some "s1", "A", "a@x", true⟩]
        "a@x" "s3").1 ∧
     BothUnique (sign_up [⟨1, some "s1", "A", "a@x", true⟩] "c@x" "C"
        (.ok ⟨some ⟨"s4", none⟩, none⟩)).1 ∧
     BothUnique (sign_in [⟨1, some "s1", "A", "a@x", true⟩]
        (.ok ⟨some ⟨"s5", some ⟨none, some "D"⟩⟩, some ⟨"at", "rt"⟩⟩) "d@x").1 ∧
     BothUnique (get_current_user [⟨1, some "s1", "A", "a@x", true⟩]
        (.ok ⟨some ⟨"s1", none⟩⟩)).1) :=
  ⟨by decide,
   services_preserve_uniqueness [⟨1, some "s1", "A", "a@x", true⟩] (by decide)
     ⟨"B", "b@x"⟩ "s2" 1 ⟨some "A2", none, none⟩ "a@x" "s3" "c@x" "C" "d@x"
     (.ok ⟨some ⟨"s4", none⟩, none⟩)
     (.ok ⟨some ⟨"s5", some ⟨none, some "D"⟩⟩, some ⟨"at", "rt"⟩⟩)
     (.ok ⟨some ⟨"s1", none⟩⟩)⟩

/-- C9: the filter of `get_users` is the Python expression
`User.is_active is True`, an identity comparison between the column
object and `True` that is constantly false, so `get_users` returns the
empty list for every database state and every skip/limit pair. -/
theorem get_users_always_empty :
    get_users_filter = false ∧
    ∀ (db : DB) (skip limit : Nat), get_users db skip limit = [] := by
  refine ⟨rfl, fun db skip limit => ?_⟩
  have h : get_users_filter = false := rfl
  simp [get_users, h]

/-- C7 (amended): a rejection by the external provider surfaces as 401
from `sign_in`, `refresh_token` and `get_current_user`, but `sign_out`
and `reset_password` wrap it as 400, not 401. -/
theorem provider_rejection_status (m em : String) (db : DB) :
    statusOf (sign_in db (.err m) em).2 = some 401 ∧
    statusOf (refresh_token (.err m)) = some 401 ∧
    statusOf (get_current_user db (.err m)).2 = some 401 ∧
    statusOf (sign_out (.err m)) = some 400 ∧
    statusOf (reset_password (.err m)) = some 400 :=
  ⟨rfl, rfl, rfl, rfl, rfl⟩

/-- C7 counterexample: `sign_out` surfaces a provider rejection with
status 400, not 401 as the claim states. -/
theorem sign_out_rejection_status_cex :
    sign_out (.err "bad token") =
      .error ⟨400, "Sign out failed: bad token"⟩ ∧
    statusOf (sign_out (.err "bad token")) ≠ some 401 :=
  ⟨rfl, by decide⟩

/-- C8: `sign_up` with an email that already has a LocalUser (linked or
not) fails with the storage layer's duplicate rejection surfaced as 400,
and the durable database is unchanged: the existing record is kept and no
second row with that email is added. -/
theorem sign_up_duplicate_email (db : DB) (email nm : String) (w : LocalUser)
    (ext : ExtResult AuthResponse)
    (hw : get_user_by_email db email = some w) :
    sign_up db email nm ext =
      (db, .error ⟨400, "Registration failed: IntegrityError"⟩) ∧
    (sign_up db email nm ext).1 = db :=
  have h := sign_up_dup_email hw nm ext
  ⟨h, by rw [h]⟩

theorem sign_up_duplicate_email_witness :
    get_user_by_email [(⟨1, none, "A", "dup@x", true⟩ : LocalUser)] "dup@x" =
      some ⟨1, none, "A", "dup@x", true⟩ ∧
    (sign_up [(⟨1, none, "A", "dup@x", true⟩ : LocalUser)] "dup@x" "B"
        (.ok ⟨some ⟨"sX", none⟩, none⟩) =
      ([⟨1, none, "A", "dup@x", true⟩],
        .error ⟨400, "Registration failed: IntegrityError"⟩) ∧
     (sign_up [(⟨1, none, "A", "dup@x", true⟩ : LocalUser)] "dup@x" "B"
        (.ok ⟨some ⟨"sX", none⟩, none⟩)).1 = [⟨1, none, "A", "dup@x", true⟩]) :=
  ⟨by decide,
   sign_up_duplicate_email [⟨1, none, "A", "dup@x", true⟩] "dup@x" "B"
     ⟨1, none, "A", "dup@x", true⟩ (.ok ⟨some ⟨"sX", none⟩, none⟩) (by decide)⟩

/-- C10: when the provider authenticates but returns a user whose
`user_metadata` is null and no LocalUser matches by external id or
email, `sign_in` fails with 401 (the create branch dereferences the null
metadata and the exception is wrapped as "Login failed") and the
database is unchanged — no LocalUser is created. -/
theorem sign_in_null_metadata_401 (db : DB) (u : ExternalUser) (s : Session)
    (em : String)
    (hmd : u.user_metadata = none)
    (hsid : get_user_by_supabase_id db u.id = none)
    (hmail : get_user_by_email db em = none) :
    sign_in db (.ok ⟨some u, some s⟩) em =
      (db, .error ⟨401, "Login failed: AttributeError"⟩) :=
  sign_in_of_resolve_exn (sign_in_resolve_null_metadata hsid hmd hmail)

theorem sign_in_null_metadata_401_witness :
    (⟨"extX", none⟩ : ExternalUser).user_metadata = none ∧
    get_user_by_supabase_id [(⟨3, some "sZ", "C", "c@x", true⟩ : LocalUser)]
      "extX" = none ∧
    get_user_by_email [(⟨3, some "sZ", "C", "c@x", true⟩ : LocalUser)]
      "new@x" = none ∧
    sign_in [(⟨3, some "sZ", "C", "c@x", true⟩ : LocalUser)]
        (.ok ⟨some ⟨"extX", none⟩, some ⟨"a10", "r10"⟩⟩) "new@x" =
      ([⟨3, some "sZ", "C", "c@x", true⟩],
        .error ⟨401, "Login failed: AttributeError"⟩) :=
  ⟨rfl, by decide, by decide,
   sign_in_null_metadata_401 [⟨3, some "sZ", "C", "c@x", true⟩]
     ⟨"extX", none⟩ ⟨"a10", "r10"⟩ "new@x" rfl (by decide) (by decide)⟩

/-- C6: when the flushed signup row is fresh and the provider creates the
user but returns a null session (email confirmation pending), the signup
endpoint responds 201 with `email_confirmation_required = true` and no
access or refresh token, raising no error. -/
theorem sign_up_email_confirmation_pending (db : DB) (em nm : String)
    (eu : ExternalUser)
    (hmail : get_user_by_email db em = none)
    (hsid : get_user_by_supabase_id db eu.id = none) :
    sign_up_endpoint db em nm (.ok ⟨some eu, none⟩) =
      (db ++ [⟨nextId db, some eu.id, nm, em, true⟩],
       .ok (201,
         ⟨"User created successfully. Please check your email to confirm your account.",
          ⟨nextId db, some eu.id, nm, em, true⟩, true, none, none⟩)) := by
  have h := sign_up_success em nm none hmail hsid
  simp [sign_up_endpoint, h]

theorem sign_up_email_confirmation_pending_witness :
    get_user_by_email [] "fresh@x" = none ∧
    get_user_by_supabase_id [] "extF" = none ∧
    sign_up_endpoint [] "fresh@x" "N" (.ok ⟨some ⟨"extF", some ⟨none, none⟩⟩, none⟩) =
      ([⟨1, some "extF", "N", "fresh@x", true⟩],
       .ok (201,
         ⟨"User created successfully. Please check your email to confirm your account.",
          ⟨1, some "extF", "N", "fresh@x", true⟩, true, none, none⟩)) :=
  ⟨rfl, rfl,
   sign_up_email_confirmation_pending [] "fresh@x" "N"
     ⟨"extF", some ⟨none, none⟩⟩ rfl rfl⟩

/-- C3: the provider authenticates, the metadata hint points at internal
id 7, no LocalUser holds the external id, and LocalUser 7 exists with no
external id set: `sign_in` returns LocalUser 7 with its external id now
set to the provider's user id, and the change is persisted in the
database. -/
theorem sign_in_hint_id7 (db : DB) (u : ExternalUser) (s : Session)
    (em : String) (md : Metadata) (w : LocalUser)
    (hinv : Invariant db)
    (hmd : u.user_metadata = some md)
    (hlid : md.local_user_id = some 7)
    (hsid : get_user_by_supabase_id db u.id = none)
    (hw : get_user_by_id db 7 = some w)
    (hnosid : w.supabase_user_id = none) :
    sign_in db (.ok ⟨some u, some s⟩) em =
      (db.map (fun x => if x.id == w.id then
         { w with supabase_user_id := some u.id } else x),
       .ok ⟨{ w with supabase_user_id := some u.id },
         s.access_token, s.refresh_token, "bearer"⟩) ∧
    get_user_by_id (sign_in db (.ok ⟨some u, some s⟩) em).1 7 =
      some { w with supabase_user_id := some u.id } := by
  obtain ⟨hwmem, hwid⟩ := get_user_by_id_mem hw
  have hupd := updateRow_link_ok hinv hwmem hsid
  have hstep := sign_in_hint_step_found hmd hlid (by decide) hw hupd
  have hres := sign_in_resolve_hint em hsid hstep
  have hmain := sign_in_of_resolve_ok (s := s) hres
  refine ⟨hmain, ?_⟩
  rw [hmain]
  unfold get_user_by_id
  rw [← hwid]
  exact find_id_map_update hinv hwmem rfl

theorem sign_in_hint_id7_witness :
    Invariant [(⟨7, none, "Seven", "s7@x", true⟩ : LocalUser)] ∧
    (sign_in [(⟨7, none, "Seven", "s7@x", true⟩ : LocalUser)]
        (.ok ⟨some ⟨"ext7", some ⟨some 7, some "Seven"⟩⟩, some ⟨"a3", "r3"⟩⟩)
        "s7@x" =
      ([(⟨7, none, "Seven", "s7@x", true⟩ : LocalUser)].map
         (fun x => if x.id == (7 : Nat) then
           (⟨7, some "ext7", "Seven", "s7@x", true⟩ : LocalUser) else x),
       .ok ⟨⟨7, some "ext7", "Seven", "s7@x", true⟩, "a3", "r3", "bearer"⟩) ∧
     get_user_by_id (sign_in [(⟨7, none, "Seven", "s7@x", true⟩ : LocalUser)]
        (.ok ⟨some ⟨"ext7", some ⟨some 7, some "Seven"⟩⟩, some ⟨"a3", "r3"⟩⟩)
        "s7@x").1 7 = some ⟨7, some "ext7", "Seven", "s7@x", true⟩) :=
  ⟨by decide,
   sign_in_hint_id7 [⟨7, none, "Seven", "s7@x", true⟩]
     ⟨"ext7", some ⟨some 7, some "Seven"⟩⟩ ⟨"a3", "r3"⟩ "s7@x"
     ⟨some 7, some "Seven"⟩ ⟨7, none, "Seven", "s7@x", true⟩
     (by decide) rfl rfl (by decide) (by decide) rfl⟩

/-- C4: the provider authenticates, no LocalUser matches the external id
or the metadata hint, and the signed-in email belongs to exactly one
unlinked LocalUser: `sign_in` links that record to the external id and
returns that same record, and the number of LocalUser rows is unchanged
(no duplicate is created). -/
theorem sign_in_email_link (db : DB) (u : ExternalUser) (s : Session)
    (em : String) (w : LocalUser)
    (hinv : Invariant db)
    (hsid : get_user_by_supabase_id db u.id = none)
    (hmiss : ∀ md lid, u.user_metadata = some md → md.local_user_id = some lid →
      lid ≠ 0 → get_user_by_id db lid = none)
    (hmail : get_user_by_email db em = some w)
    (hnosid : w.supabase_user_id = none) :
    sign_in db (.ok ⟨some u, some s⟩) em =
      (db.map (fun x => if x.id == w.id then
         { w with supabase_user_id := some u.id } else x),
       .ok ⟨{ w with supabase_user_id := some u.id },
         s.access_token, s.refresh_token, "bearer"⟩) ∧
    (sign_in db (.ok ⟨some u, some s⟩) em).1.length = db.length := by
  obtain ⟨hwmem, hwmail⟩ := get_user_by_email_mem hmail
  have hupd := updateRow_link_ok hinv hwmem hsid
  have hstep := sign_in_hint_step_miss hmiss
  have hres := sign_in_resolve_email hsid hstep hmail hupd
  have hmain := sign_in_of_resolve_ok (s := s) hres
  refine ⟨hmain, ?_⟩
  rw [hmain]
  exact List.length_map db _

theorem sign_in_email_link_witness :
    Invariant [(⟨4, none, "Four", "s4@x", true⟩ : LocalUser)] ∧
    (sign_in [(⟨4, none, "Four", "s4@x", true⟩ : LocalUser)]
        (.ok ⟨some ⟨"ext4", some ⟨some 99, some "Four"⟩⟩, some ⟨"a4", "r4"⟩⟩)
        "s4@x" =
      ([(⟨4, none, "Four", "s4@x", true⟩ : LocalUser)].map
         (fun x => if x.id == (4 : Nat) then
           (⟨4, some "ext4", "Four", "s4@x", true⟩ : LocalUser) else x),
       .ok ⟨⟨4, some "ext4", "Four", "s4@x", true⟩, "a4", "r4", "bearer"⟩) ∧
     (sign_in [(⟨4, none, "Four", "s4@x", true⟩ : LocalUser)]
        (.ok ⟨some ⟨"ext4", some ⟨some 99, some "Four"⟩⟩, some ⟨"a4", "r4"⟩⟩)
        "s4@x").1.length =
       [(⟨4, none, "Four", "s4@x", true⟩ : LocalUser)].length) :=
  ⟨by decide,
   sign_in_email_link [⟨4, none, "Four", "s4@x", true⟩]
     ⟨"ext4", some ⟨some 99, some "Four"⟩⟩ ⟨"a4", "r4"⟩ "s4@x"
     ⟨4, none, "Four", "s4@x", true⟩ (by decide) (by decide)
     (by
       intro md lid hmd hlid h0
       obtain rfl := Option.some.inj hmd
       obtain rfl := Option.some.inj hlid
       decide)
     (by decide) rfl⟩

/-- C5 (amended): the provider authenticates and returns a user with a
non-null metadata dict, and no LocalUser matches by external id, by
metadata hint, or by email: `sign_in` creates exactly one new LocalUser
with that email, the external id attached and the display name taken
from the metadata (falling back to the placeholder "Unknown"), and
returns it.  When the metadata is null the create branch instead raises
and `sign_in` fails with 401 (see the counterexample). -/
theorem sign_in_creates_user (db : DB) (u : ExternalUser) (s : Session)
    (em : String) (md : Metadata)
    (hsid : get_user_by_supabase_id db u.id = none)
    (hmiss : ∀ md0 lid, u.user_metadata = some md0 →
      md0.local_user_id = some lid → lid ≠ 0 → get_user_by_id db lid = none)
    (hmail : get_user_by_email db em = none)
    (hmd : u.user_metadata = some md) :
    sign_in db (.ok ⟨some u, some s⟩) em =
      (db ++ [⟨nextId db, some u.id, md.name.getD "Unknown", em, true⟩],
       .ok ⟨⟨nextId db, some u.id, md.name.getD "Unknown", em, true⟩,
         s.access_token, s.refresh_token, "bearer"⟩) ∧
    (sign_in db (.ok ⟨some u, some s⟩) em).1.length = db.length + 1 := by
  have hstep := sign_in_hint_step_miss hmiss
  have hcreate := create_user_success ⟨md.name.getD "Unknown", em⟩ hmail hsid
  have hres := sign_in_resolve_create hsid hstep hmail hmd hcreate
  have hmain := sign_in_of_resolve_ok (s := s) hres
  refine ⟨hmain, ?_⟩
  rw [hmain]
  simp

theorem sign_in_creates_user_witness :
    get_user_by_supabase_id [] "ext5" = none ∧
    get_user_by_email [] "s5@x" = none ∧
    (⟨"ext5", some ⟨none, some "Five"⟩⟩ : ExternalUser).user_metadata =
      some ⟨none, some "Five"⟩ ∧
    (sign_in [] (.ok ⟨some ⟨"ext5", some ⟨none, some "Five"⟩⟩,
        some ⟨"a5", "r5"⟩⟩) "s5@x" =
      ([⟨1, some "ext5", "Five", "s5@x", true⟩],
       .ok ⟨⟨1, some "ext5", "Five", "s5@x", true⟩, "a5", "r5", "bearer"⟩) ∧
     (sign_in [] (.ok ⟨some ⟨"ext5", some ⟨none, some "Five"⟩⟩,
        some ⟨"a5", "r5"⟩⟩) "s5@x").1.length = ([] : DB).length + 1) :=
  ⟨rfl, rfl, rfl,
   sign_in_creates_user [] ⟨"ext5", some ⟨none, some "Five"⟩⟩ ⟨"a5", "r5"⟩
     "s5@x" ⟨none, some "Five"⟩ rfl
     (by
       intro md lid hmd hlid h0
       obtain rfl := Option.some.inj hmd
       simp at hlid)
     rfl rfl⟩

/-- C5 counterexample: with a null `user_metadata` and no matching
LocalUser at all, `sign_in` does not create a LocalUser: it fails with
401 and leaves the database empty. -/
theorem sign_in_creates_user_cex :
    sign_in [] (.ok ⟨some ⟨"extC5", none⟩, some ⟨"aC5", "rC5"⟩⟩) "c5@x" =
      ([], .error ⟨401, "Login failed: AttributeError"⟩) := rfl

/-- C1 (amended): resolution order of `sign_in` once the provider has
authenticated and returned a user and a session: (1) look up by external
id and return the row unmodified if found; (2) else, on a non-zero
metadata hint whose internal id exists, attach the external id, persist
and return that row; (3) else look up by email and, if found, link the
external id, persist and return that row; (4) else — provided the
external user's metadata dict is not null — create exactly one new
LocalUser and return it.  (With a null metadata dict the create branch
raises instead and the sign-in fails with 401; see the
counterexample.) -/
theorem sign_in_resolution_order (db : DB) (u : ExternalUser) (s : Session)
    (em : String) (hinv : Invariant db) :
    (∀ lu, get_user_by_supabase_id db u.id = some lu →
      sign_in db (.ok ⟨some u, some s⟩) em =
        (db, .ok ⟨lu, s.access_token, s.refresh_token, "bearer"⟩)) ∧
    (get_user_by_supabase_id db u.id = none →
      ∀ md lid w, u.user_metadata = some md → md.local_user_id = some lid →
        lid ≠ 0 → get_user_by_id db lid = some w →
        sign_in db (.ok ⟨some u, some s⟩) em =
          (db.map (fun x => if x.id == w.id then
             { w with supabase_user_id := some u.id } else x),
           .ok ⟨{ w with supabase_user_id := some u.id },
             s.access_token, s.refresh_token, "bearer"⟩)) ∧
    (get_user_by_supabase_id db u.id = none →
      (∀ md lid, u.user_metadata = some md → md.local_user_id = some lid →
        lid ≠ 0 → get_user_by_id db lid = none) →
      ∀ w, get_user_by_email db em = some w →
        sign_in db (.ok ⟨some u, some s⟩) em =
          (db.map (fun x => if x.id == w.id then
             { w with supabase_user_id := some u.id } else x),
           .ok ⟨{ w with supabase_user_id := some u.id },
             s.access_token, s.refresh_token, "bearer"⟩)) ∧
    (get_user_by_supabase_id db u.id = none →
      (∀ md lid, u.user_metadata = some md → md.local_user_id = some lid →
        lid ≠ 0 → get_user_by_id db lid = none) →
      get_user_by_email db em = none →
      ∀ md, u.user_metadata = some md →
        sign_in db (.ok ⟨some u, some s⟩) em =
          (db ++ [⟨nextId db, some u.id, md.name.getD "Unknown", em, true⟩],
           .ok ⟨⟨nextId db, some u.id, md.name.getD "Unknown", em, true⟩,
             s.access_token, s.refresh_token, "bearer"⟩)) := by
  refine ⟨?_, ?_, ?_, ?_⟩
  · intro lu h
    exact sign_in_of_resolve_ok (sign_in_resolve_fast h)
  · intro hsid md lid w hmd hlid h0 hw
    obtain ⟨hwmem, hwid⟩ := get_user_by_id_mem hw
    have hupd := updateRow_link_ok hinv hwmem hsid
    exact sign_in_of_resolve_ok (sign_in_resolve_hint em hsid
      (sign_in_hint_step_found hmd hlid h0 hw hupd))
  · intro hsid hmiss w hmail
    obtain ⟨hwmem, hwmail⟩ := get_user_by_email_mem hmail
    have hupd := updateRow_link_ok hinv hwmem hsid
    exact sign_in_of_resolve_ok (sign_in_resolve_email hsid
      (sign_in_hint_step_miss hmiss) hmail hupd)
  · intro hsid hmiss hmail md hmd
    exact sign_in_of_resolve_ok (sign_in_resolve_create hsid
      (sign_in_hint_step_miss hmiss) hmail hmd
      (create_user_success ⟨md.name.getD "Unknown", em⟩ hmail hsid))

/-- C1 counterexample: in the final branch of the cascade (no match by
external id, hint, or email), a null `user_metadata` makes `sign_in`
fail with 401 instead of creating a new LocalUser, so the claim's
unconditional "else create a new LocalUser" does not hold as stated. -/
theorem sign_in_resolution_order_cex :
    sign_in [] (.ok ⟨some ⟨"extC1", none⟩, some ⟨"aC1", "rC1"⟩⟩) "c1@x" =
      ([], .error ⟨401, "Login failed: AttributeError"⟩) := rfl

theorem sign_in_resolution_order_witness :
    Invariant [(⟨2, none, "Two", "w1@x", true⟩ : LocalUser)] ∧
    ((∀ lu, get_user_by_supabase_id [(⟨2, none, "Two", "w1@x", true⟩ : LocalUser)]
        "extW1" = some lu →
      sign_in [(⟨2, none, "Two", "w1@x", true⟩ : LocalUser)]
          (.ok ⟨some ⟨"extW1", some ⟨some 2, some "Two"⟩⟩, some ⟨"aW", "rW"⟩⟩)
          "w1@x" =
        ([(⟨2, none, "Two", "w1@x", true⟩ : LocalUser)],
         .ok ⟨lu, "aW", "rW", "bearer"⟩)) ∧
     (get_user_by_supabase_id [(⟨2, none, "Two", "w1@x", true⟩ : LocalUser)]
        "extW1" = none →
      ∀ md lid w, (some (⟨some 2, some "Two"⟩ : Metadata) : Option Metadata) =
          some md →
        md.local_user_id = some lid → lid ≠ 0 →
        get_user_by_id [(⟨2, none, "Two", "w1@x", true⟩ : LocalUser)] lid =
          some w →
        sign_in [(⟨2, none, "Two", "w1@x", true⟩ : LocalUser)]
            (.ok ⟨some ⟨"extW1", some ⟨some 2, some "Two"⟩⟩, some ⟨"aW", "rW"⟩⟩)
            "w1@x" =
          ([(⟨2, none, "Two", "w1@x", true⟩ : LocalUser)].map
             (fun x => if x.id == w.id then
               { w with supabase_user_id := some "extW1" } else x),
           .ok ⟨{ w with supabase_user_id := some "extW1" },
             "aW", "rW", "bearer"⟩)) ∧
     (get_user_by_supabase_id [(⟨2, none, "Two", "w1@x", true⟩ : LocalUser)]
        "extW1" = none →
      (∀ md lid, (some (⟨some 2, some "Two"⟩ : Metadata) : Option Metadata) =
          some md →
        md.local_user_id = some lid → lid ≠ 0 →
        get_user_by_id [(⟨2, none, "Two", "w1@x", true⟩ : LocalUser)] lid =
          none) →
      ∀ w, get_user_by_email [(⟨2, none, "Two", "w1@x", true⟩ : LocalUser)]
          "w1@x" = some w →
        sign_in [(⟨2, none, "Two", "w1@x", true⟩ : LocalUser)]
            (.ok ⟨some ⟨"extW1", some ⟨some 2, some "Two"⟩⟩, some ⟨"aW", "rW"⟩⟩)
            "w1@x" =
          ([(⟨2, none, "Two", "w1@x", true⟩ : LocalUser)].map
             (fun x => if x.id == w.id then
               { w with supabase_user_id := some "extW1" } else x),
           .ok ⟨{ w with supabase_user_id := some "extW1" },
             "aW", "rW", "bearer"⟩)) ∧
     (get_user_by_supabase_id [(⟨2, none, "Two", "w1@x", true⟩ : LocalUser)]
        "extW1" = none →
      (∀ md lid, (some (⟨some 2, some "Two"⟩ : Metadata) : Option Metadata) =
          some md →
        md.local_user_id = some lid → lid ≠ 0 →
        get_user_by_id [(⟨2, none, "Two", "w1@x", true⟩ : LocalUser)] lid =
          none) →
      get_user_by_email [(⟨2, none, "Two", "w1@x", true⟩ : LocalUser)]
        "w1@x" = none →
      ∀ md, (some (⟨some 2, some "Two"⟩ : Metadata) : Option Metadata) =
          some md →
        sign_in [(⟨2, none, "Two", "w1@x", true⟩ : LocalUser)]
            (.ok ⟨some ⟨"extW1", some ⟨some 2, some "Two"⟩⟩, some ⟨"aW", "rW"⟩⟩)
            "w1@x" =
          ([(⟨2, none, "Two", "w1@x", true⟩ : LocalUser)] ++
             [⟨nextId [(⟨2, none, "Two", "w1@x", true⟩ : LocalUser)],
               some "extW1", md.name.getD "Unknown", "w1@x", true⟩],
           .ok ⟨⟨nextId [(⟨2, none, "Two", "w1@x", true⟩ : LocalUser)],
               some "extW1", md.name.getD "Unknown", "w1@x", true⟩,
             "aW", "rW", "bearer"⟩))) :=
  ⟨by decide,
   sign_in_resolution_order [⟨2, none, "Two", "w1@x", true⟩]
     ⟨"extW1", some ⟨some 2, some "Two"⟩⟩ ⟨"aW", "rW"⟩ "w1@x" (by decide)⟩
